import Mathlib

/-!
Verification of the spherical test-function catalog (sphc).

The source is a single C++ header of pure, precision-generic scalar
functions on the unit sphere, parameterized by spherical angles
(theta, phi).  We give the real-valued shallow embedding: every
floating-point expression is read as the corresponding expression over
the real numbers, with the float literals that approximate pi (the
F_PI family of macros) embedded as the exact real constants they
denote mathematically.  Division, abs, sqrt, exp, atan and the
trigonometric functions are the Mathlib real versions.
-/

noncomputable section

namespace sphc

open Real
open Classical

/-- Embedding of the F_PI macro: the float literal is the single-precision
rounding of pi; over the reals it denotes pi itself. -/
def F_PI : ℝ := Real.pi

/-- Embedding of the F_PI_2 macro (pi / 2). -/
def F_PI_2 : ℝ := Real.pi / 2

/-- Coordinate transform: (theta, phi) to Cartesian (x, y, z) on the unit
sphere, as in the header. -/
def spherical_to_xyz (theta phi : ℝ) : ℝ × ℝ × ℝ :=
  (Real.sin theta * Real.cos phi, Real.sin theta * Real.sin phi, Real.cos theta)

/-- Sign helper, mirroring the C++ (T(0) < val) - (val < T(0)) over an
ordered field value: the two comparison results, read as 0/1 integers,
subtracted. -/
def sgn (val : ℝ) : ℤ :=
  (if (0 : ℝ) < val then 1 else 0) - (if val < (0 : ℝ) then 1 else 0)

/-- Model of an IEEE floating-point datum as seen by the comparison
operators: either a (finite, real-valued) number or NaN. -/
inductive FVal where
  | num (v : ℝ) : FVal
  | nan : FVal

/-- IEEE comparison semantics for the model: two numbers compare by their
real values; any comparison involving NaN is false. -/
def FVal.lt : FVal → FVal → Prop
  | FVal.num a, FVal.num b => a < b
  | _, _ => False

/-- The sign helper instantiated at the IEEE value model, with the same
comparison structure as the source. -/
def sgnF (val : FVal) : ℤ :=
  (if FVal.lt (FVal.num 0) val then 1 else 0) - (if FVal.lt val (FVal.num 0) then 1 else 0)

/-- Euclidean inner product of two 3-vectors, as in the header. -/
def dot (x1 y1 z1 x2 y2 z2 : ℝ) : ℝ :=
  x1 * x2 + y1 * y2 + z1 * z2

/-! The catalog, in source order. -/

def fornberg_f1 (theta phi : ℝ) : ℝ :=
  let x := (spherical_to_xyz theta phi).1
  let y := (spherical_to_xyz theta phi).2.1
  let z := (spherical_to_xyz theta phi).2.2
  1 + x + y * y + x * x * y + x * x * x * x + y * y * y * y * y + x * x * y * y * z * z

def fornberg_f4 (theta phi : ℝ) : ℝ :=
  let x := (spherical_to_xyz theta phi).1
  let y := (spherical_to_xyz theta phi).2.1
  let z := (spherical_to_xyz theta phi).2.2
  (1 + (sgn (-9 * x - 9 * y + 9 * z) : ℝ)) / 9

def beentjes_f3 (theta phi : ℝ) : ℝ :=
  let alpha : ℝ := 9
  let x := (spherical_to_xyz theta phi).1
  let y := (spherical_to_xyz theta phi).2.1
  let z := (spherical_to_xyz theta phi).2.2
  (1 + Real.tanh (-alpha * x - alpha * y + alpha * z)) / alpha

def beentjes_f4 (theta phi : ℝ) : ℝ :=
  let alpha : ℝ := 9
  let x := (spherical_to_xyz theta phi).1
  let y := (spherical_to_xyz theta phi).2.1
  let z := (spherical_to_xyz theta phi).2.2
  (1 - (sgn (x + y - z) : ℝ)) / alpha

def beentjes_f5 (theta phi : ℝ) : ℝ :=
  let alpha : ℝ := 9
  let x := (spherical_to_xyz theta phi).1
  let y := (spherical_to_xyz theta phi).2.1
  (1 - (sgn (F_PI * x + y) : ℝ)) / alpha

def renka_f3 (theta phi : ℝ) : ℝ :=
  let x := (spherical_to_xyz theta phi).1
  let y := (spherical_to_xyz theta phi).2.1
  let z := (spherical_to_xyz theta phi).2.2
  |(1.25 + Real.cos (5.4 * y)) * Real.cos (6 * z) / (6 + 6 * (3 * x - 1) * (3 * x - 1))|

def renka_f4 (theta phi : ℝ) : ℝ :=
  let x := (spherical_to_xyz theta phi).1
  let y := (spherical_to_xyz theta phi).2.1
  let z := (spherical_to_xyz theta phi).2.2
  Real.exp (-(81 / 16) * ((x - 0.5) ^ 2 + (y - 0.5) ^ 2 + (z - 0.5) ^ 2)) / 3

def renka_f5 (theta phi : ℝ) : ℝ :=
  let x := (spherical_to_xyz theta phi).1
  let y := (spherical_to_xyz theta phi).2.1
  let z := (spherical_to_xyz theta phi).2.2
  Real.exp (-(81 / 4) * ((x - 0.5) ^ 2 + (y - 0.5) ^ 2 + (z - 0.5) ^ 2)) / 3

def reegar_f3 (theta phi : ℝ) : ℝ :=
  let z := (spherical_to_xyz theta phi).2.2
  (F_PI_2 + Real.arctan (300 * (z - 9999 / 10000))) / F_PI

def bellet_f4 (theta phi : ℝ) : ℝ :=
  let x := (spherical_to_xyz theta phi).1
  0.5 * (1 + (sgn (x - 0.5) : ℝ))

def reegar_f2 (theta phi : ℝ) : ℝ :=
  let z := (spherical_to_xyz theta phi).2.2
  2 / F_PI * Real.arctan z

def reegar_f4 (theta phi : ℝ) : ℝ :=
  let z := (spherical_to_xyz theta phi).2.2
  0.5 + Real.arctan (1000 * (z - 9999 / (10000 * 2 * Real.sqrt 2))) / F_PI

def franke (theta phi : ℝ) : ℝ :=
  let x := (spherical_to_xyz theta phi).1
  let y := (spherical_to_xyz theta phi).2.1
  let z := (spherical_to_xyz theta phi).2.2
  0.75 * Real.exp (-(9 * x - 2) * (9 * x - 2) / 4 -
        (9 * y - 2) * (9 * y - 2) / 4 -
        (9 * z - 2) * (9 * z - 2) / 4) +
    0.75 * Real.exp (-(9 * x + 1) * (9 * x + 1) / 49 -
        (9 * y + 1) / 10 -
        (9 * z + 1) / 10) +
    0.5 * Real.exp (-(9 * x - 7) * (9 * x - 7) / 4 -
        (9 * y - 3) * (9 * y - 3) / 4 -
        (9 * z - 5) * (9 * z - 5) / 4) -
    0.2 * Real.exp (-(9 * x - 4) * (9 * x - 4) -
        (9 * y - 7) * (9 * y - 7) -
        (9 * z - 5) * (9 * z - 5))

def cf_f1 (theta phi : ℝ) : ℝ :=
  |Real.sin (Real.cos (2 * phi) - 2 * theta)| + |Real.cos (2 * theta)|

def cf_f2 (theta phi : ℝ) : ℝ :=
  |Real.sin (2 * phi - theta)| + |Real.cos (2 * theta)|

def cf_f3 (_theta phi : ℝ) : ℝ :=
  1 + Real.sin (5 * phi) / 5

def cf_f4 (theta phi : ℝ) : ℝ :=
  1 + Real.cos (5 * phi) / 5 + Real.sin (5 * theta)

def cf_f5 (theta phi : ℝ) : ℝ :=
  Real.exp (2 * dot (Real.sin theta * Real.cos phi) (Real.sin theta * Real.sin phi)
        (Real.cos theta) (-1) (-1) 0.8) +
    Real.exp (1.5 * dot (Real.sin theta * Real.cos phi) (Real.sin theta * Real.sin phi)
        (Real.cos theta) 1 (-1) 0.8) +
    Real.exp theta + 10 * Real.exp (dot (Real.sin theta * Real.cos phi)
        (Real.sin theta * Real.sin phi) (Real.cos theta) 0.8 0.3 (-4) - 1) +
    4 * |Real.cos (45 * theta + 45 * phi)|

def cf_f6 (theta phi : ℝ) : ℝ :=
  1 + 0.5 * Real.cos theta + 0.3 * Real.cos (2 * phi)

def cf_f7 (theta phi : ℝ) : ℝ :=
  let x := (spherical_to_xyz theta phi).1
  let y := (spherical_to_xyz theta phi).2.1
  let z := (spherical_to_xyz theta phi).2.2
  |Real.cos (3 * x) + Real.sin (2 * y) + 0.5 * z * z|

def cf_f8 (theta phi : ℝ) : ℝ :=
  let x := (spherical_to_xyz theta phi).1
  let y := (spherical_to_xyz theta phi).2.1
  let z := (spherical_to_xyz theta phi).2.2
  |Real.sin (2 * x) * Real.cos (3 * y) + 0.5 * z * z + 0.3 * Real.sin (5 * x) * Real.cos (4 * z)|

def cf_f9 (theta phi : ℝ) : ℝ :=
  let x := (spherical_to_xyz theta phi).1
  let y := (spherical_to_xyz theta phi).2.1
  let z := (spherical_to_xyz theta phi).2.2
  |x * x - y * y + 0.5 * x * z - 0.3 * y * z|

def cf_f10 (theta phi : ℝ) : ℝ :=
  let x := (spherical_to_xyz theta phi).1
  let y := (spherical_to_xyz theta phi).2.1
  let z := (spherical_to_xyz theta phi).2.2
  x * x + y * y + z * z + 5 + 2.5 * Real.cos ((theta - F_PI) / 2) * Real.sin (16 * theta)

def cf_f11 (theta phi : ℝ) : ℝ :=
  let x := (spherical_to_xyz theta phi).1
  let y := (spherical_to_xyz theta phi).2.1
  let z := (spherical_to_xyz theta phi).2.2
  |Real.sin (10 * x) * Real.cos (12 * y) * Real.sin (15 * z) + Real.cos (20 * x)|

def cf_f12 (theta phi : ℝ) : ℝ :=
  let x := (spherical_to_xyz theta phi).1
  let y := (spherical_to_xyz theta phi).2.1
  let z := (spherical_to_xyz theta phi).2.2
  Real.sin (10 * x) + Real.cos (12 * y) - Real.sin (15 * z) + 0.2 * Real.cos (18 * x) + 3

def cf_f13 (theta phi : ℝ) : ℝ :=
  let x := (spherical_to_xyz theta phi).1
  let y := (spherical_to_xyz theta phi).2.1
  let z := (spherical_to_xyz theta phi).2.2
  Real.exp (-Real.sin (5 * x) - Real.cos (6 * y)) + 0.3 * Real.sin (10 * z)

def cf_f14 (theta phi : ℝ) : ℝ :=
  let x := (spherical_to_xyz theta phi).1
  let y := (spherical_to_xyz theta phi).2.1
  let z := (spherical_to_xyz theta phi).2.2
  Real.exp (-2 * (x * x + y * y)) * Real.sin (4 * z)

def cf_15 (theta phi : ℝ) : ℝ :=
  let x := (spherical_to_xyz theta phi).1
  let y := (spherical_to_xyz theta phi).2.1
  let z := (spherical_to_xyz theta phi).2.2
  (x * x + y * y) * Real.exp (-3 * z * z)

/-! Basic facts about the transform. -/

/-- The squared norm of the transform output is one. -/
theorem spherical_to_xyz_norm (theta phi : ℝ) :
    (spherical_to_xyz theta phi).1 ^ 2 + (spherical_to_xyz theta phi).2.1 ^ 2 +
      (spherical_to_xyz theta phi).2.2 ^ 2 = 1 := by
  simp only [spherical_to_xyz]
  have h1 := Real.sin_sq_add_cos_sq theta
  have h2 := Real.sin_sq_add_cos_sq phi
  nlinarith [h1, h2]

/-- C1: spherical_to_xyz returns exactly
(sin(theta)cos(phi), sin(theta)sin(phi), cos(theta)), and the returned
triple satisfies x^2 + y^2 + z^2 = 1 exactly over the real-valued
embedding. -/
theorem C1_spherical_to_xyz_correct (theta phi : ℝ) :
    spherical_to_xyz theta phi =
      (Real.sin theta * Real.cos phi, Real.sin theta * Real.sin phi, Real.cos theta) ∧
    (spherical_to_xyz theta phi).1 ^ 2 + (spherical_to_xyz theta phi).2.1 ^ 2 +
      (spherical_to_xyz theta phi).2.2 ^ 2 = 1 := by
  refine ⟨rfl, ?_⟩
  simp only [spherical_to_xyz]
  nlinarith [Real.sin_sq_add_cos_sq theta, Real.sin_sq_add_cos_sq phi]

/-! The sign helper. -/

/-- On a positive input the sign helper returns 1. -/
theorem sgn_of_pos {v : ℝ} (h : 0 < v) : sgn v = 1 := by
  simp [sgn, if_pos h, if_neg (lt_asymm h)]

/-- On a negative input the sign helper returns -1. -/
theorem sgn_of_neg {v : ℝ} (h : v < 0) : sgn v = -1 := by
  simp [sgn, if_neg (lt_asymm h), if_pos h]

/-- On zero the sign helper returns 0. -/
theorem sgn_zero : sgn 0 = 0 := by
  simp [sgn]

/-- The sign helper only takes the values 1, 0 and -1. -/
theorem sgn_cases (v : ℝ) : sgn v = 1 ∨ sgn v = 0 ∨ sgn v = -1 := by
  rcases lt_trichotomy 0 v with h | h | h
  · exact Or.inl (sgn_of_pos h)
  · exact Or.inr (Or.inl (h ▸ sgn_zero))
  · exact Or.inr (Or.inr (sgn_of_neg h))

/-- C4: the sign helper returns 1 when v > 0, -1 when v < 0, and 0 when
v = 0; under the IEEE comparison model it returns 0 for NaN input because
NaN compares false under both orders. -/
theorem C4_sgn_spec :
    (∀ v : ℝ, (0 < v → sgn v = 1) ∧ (v < 0 → sgn v = -1) ∧ (v = 0 → sgn v = 0)) ∧
    sgnF FVal.nan = 0 := by
  refine ⟨fun v => ⟨fun h => sgn_of_pos h, fun h => sgn_of_neg h, fun h => h ▸ sgn_zero⟩, ?_⟩
  simp [sgnF, FVal.lt]

/-- C4 witness: the sign helper evaluated at 3, -2, 0 and NaN. -/
theorem C4_sgn_spec_witness :
    sgn 3 = 1 ∧ sgn (-2) = -1 ∧ sgn 0 = 0 ∧ sgnF FVal.nan = 0 :=
  ⟨(C4_sgn_spec.1 3).1 (by norm_num), (C4_sgn_spec.1 (-2)).2.1 (by norm_num),
    (C4_sgn_spec.1 0).2.2 rfl, C4_sgn_spec.2⟩

/-! Concrete evaluations of beentjes_f4, used to refute binary-valuedness. -/

/-- At theta = pi/2, phi = 0 the sign argument of beentjes_f4 is 1, so the
value is (1 - 1)/9 = 0. -/
theorem beentjes_f4_quarter : beentjes_f4 (Real.pi / 2) 0 = 0 := by
  have h : sgn (Real.sin (Real.pi / 2) * Real.cos 0 + Real.sin (Real.pi / 2) * Real.sin 0 -
      Real.cos (Real.pi / 2)) = 1 := by
    rw [Real.sin_pi_div_two, Real.cos_zero, Real.sin_zero, Real.cos_pi_div_two]
    norm_num [sgn_of_pos]
  simp only [beentjes_f4, spherical_to_xyz, h]
  norm_num

/-- At theta = 0 the sign argument of beentjes_f4 is -1, so the value is
(1 + 1)/9 = 2/9. -/
theorem beentjes_f4_pole : beentjes_f4 0 0 = 2 / 9 := by
  have h : sgn (Real.sin 0 * Real.cos 0 + Real.sin 0 * Real.sin 0 - Real.cos 0) = -1 := by
    rw [Real.sin_zero, Real.cos_zero]
    norm_num [sgn_of_neg]
  simp only [beentjes_f4, spherical_to_xyz, h]
  norm_num

/-- At theta = pi/2, phi = 3pi/4 the sign argument of beentjes_f4 vanishes,
so sgn returns 0 and the value is 1/9: the middle value is attained. -/
theorem beentjes_f4_mid : beentjes_f4 (Real.pi / 2) (3 * Real.pi / 4) = 1 / 9 := by
  have hc : Real.cos (3 * Real.pi / 4) = -(Real.sqrt 2 / 2) := by
    have h34 : (3 : ℝ) * Real.pi / 4 = Real.pi - Real.pi / 4 := by ring
    rw [h34, Real.cos_pi_sub, Real.cos_pi_div_four]
  have hs : Real.sin (3 * Real.pi / 4) = Real.sqrt 2 / 2 := by
    have h34 : (3 : ℝ) * Real.pi / 4 = Real.pi - Real.pi / 4 := by
      ring
    rw [h34, Real.sin_pi_sub, Real.sin_pi_div_four]
  have h : sgn (Real.sin (Real.pi / 2) * Real.cos (3 * Real.pi / 4) +
      Real.sin (Real.pi / 2) * Real.sin (3 * Real.pi / 4) - Real.cos (Real.pi / 2)) = 0 := by
    rw [Real.sin_pi_div_two, Real.cos_pi_div_two, hc, hs]
    norm_num [sgn_zero]
  simp only [beentjes_f4, spherical_to_xyz, h]
  norm_num

/-- C2 counterexample: beentjes_f4 is not binary-valued — no two-element
set contains all its outputs, since at (pi/2, 0), (pi/2, 3pi/4) and (0, 0)
it takes the three distinct values 0, 1/9 and 2/9. -/
theorem C2_counterexample :
    ¬ ∃ a b : ℝ, ∀ theta phi : ℝ, beentjes_f4 theta phi = a ∨ beentjes_f4 theta phi = b := by
  rintro ⟨a, b, h⟩
  have h0 := h (Real.pi / 2) 0
  have h1 := h (Real.pi / 2) (3 * Real.pi / 4)
  have h2 := h 0 0
  rw [beentjes_f4_quarter] at h0
  rw [beentjes_f4_mid] at h1
  rw [beentjes_f4_pole] at h2
  rcases h0 with h0 | h0 <;> rcases h1 with h1 | h1 <;> rcases h2 with h2 | h2 <;> linarith

/-- C2 amended: each sign-based catalog function takes exactly three
possible values — the two extreme values claimed plus the middle value on
the zero set of the sign argument: fornberg_f4, beentjes_f4 and
beentjes_f5 take values in {0, 1/9, 2/9}, and bellet_f4 in
{0, 1/2, 1}. -/
theorem C2_amended_three_valued (theta phi : ℝ) :
    (fornberg_f4 theta phi = 0 ∨ fornberg_f4 theta phi = 1 / 9 ∨ fornberg_f4 theta phi = 2 / 9) ∧
    (beentjes_f4 theta phi = 0 ∨ beentjes_f4 theta phi = 1 / 9 ∨ beentjes_f4 theta phi = 2 / 9) ∧
    (beentjes_f5 theta phi = 0 ∨ beentjes_f5 theta phi = 1 / 9 ∨ beentjes_f5 theta phi = 2 / 9) ∧
    (bellet_f4 theta phi = 0 ∨ bellet_f4 theta phi = 1 / 2 ∨ bellet_f4 theta phi = 1) := by
  refine ⟨?_, ?_, ?_, ?_⟩
  · rcases sgn_cases (-9 * (spherical_to_xyz theta phi).1 - 9 * (spherical_to_xyz theta phi).2.1 +
        9 * (spherical_to_xyz theta phi).2.2) with h | h | h <;>
      simp only [fornberg_f4, h] <;> norm_num
  · rcases sgn_cases ((spherical_to_xyz theta phi).1 + (spherical_to_xyz theta phi).2.1 -
        (spherical_to_xyz theta phi).2.2) with h | h | h <;>
      simp only [beentjes_f4, h] <;> norm_num
  · rcases sgn_cases (F_PI * (spherical_to_xyz theta phi).1 +
        (spherical_to_xyz theta phi).2.1) with h | h | h <;>
      simp only [beentjes_f5, h] <;> norm_num
  · rcases sgn_cases ((spherical_to_xyz theta phi).1 - 0.5) with h | h | h <;>
      simp only [bellet_f4, h] <;> norm_num

/-! renka_f3 and its denominator. -/

/-- C6: the denominator of renka_f3 is bounded below by 6, hence never
zero, and renka_f3 is everywhere defined and equal to its closed form with
the absolute value pushed to the numerator. -/
theorem C6_renka_f3_total (theta phi : ℝ) :
    6 ≤ 6 + 6 * (3 * (spherical_to_xyz theta phi).1 - 1) * (3 * (spherical_to_xyz theta phi).1 - 1) ∧
    6 + 6 * (3 * (spherical_to_xyz theta phi).1 - 1) * (3 * (spherical_to_xyz theta phi).1 - 1) ≠ 0 ∧
    renka_f3 theta phi =
      |(1.25 + Real.cos (5.4 * (spherical_to_xyz theta phi).2.1)) *
          Real.cos (6 * (spherical_to_xyz theta phi).2.2)| /
        (6 + 6 * (3 * (spherical_to_xyz theta phi).1 - 1) *
          (3 * (spherical_to_xyz theta phi).1 - 1)) := by
  set x := (spherical_to_xyz theta phi).1 with hx
  have hsq : 0 ≤ (3 * x - 1) * (3 * x - 1) := mul_self_nonneg _
  have hle : (6 : ℝ) ≤ 6 + 6 * (3 * x - 1) * (3 * x - 1) := by nlinarith
  have hpos : (0 : ℝ) < 6 + 6 * (3 * x - 1) * (3 * x - 1) := by linarith
  refine ⟨hle, ne_of_gt hpos, ?_⟩
  simp only [renka_f3, ← hx]
  rw [abs_div, abs_of_pos hpos]

/-! fornberg_f1. -/

/-- C7: fornberg_f1 equals 1 + x + y^2 + x^2 y + x^4 + y^5 + x^2 y^2 z^2
in the transformed coordinates, and fornberg_f1 0 0 = 1 exactly. -/
theorem C7_fornberg_f1 :
    (∀ theta phi : ℝ, fornberg_f1 theta phi =
      1 + (spherical_to_xyz theta phi).1 + (spherical_to_xyz theta phi).2.1 ^ 2 +
        (spherical_to_xyz theta phi).1 ^ 2 * (spherical_to_xyz theta phi).2.1 +
        (spherical_to_xyz theta phi).1 ^ 4 + (spherical_to_xyz theta phi).2.1 ^ 5 +
        (spherical_to_xyz theta phi).1 ^ 2 * (spherical_to_xyz theta phi).2.1 ^ 2 *
          (spherical_to_xyz theta phi).2.2 ^ 2) ∧
    fornberg_f1 0 0 = 1 := by
  constructor
  · intro theta phi
    simp only [fornberg_f1]
    ring
  · simp [fornberg_f1, spherical_to_xyz]

/-! reegar_f2. -/

/-- C8: reegar_f2 always lies in [-1, 1], and reegar_f2 0 0 = 1/2
exactly, since there z = 1 and arctan 1 = pi/4. -/
theorem C8_reegar_f2 :
    (∀ theta phi : ℝ, -1 ≤ reegar_f2 theta phi ∧ reegar_f2 theta phi ≤ 1) ∧
    reegar_f2 0 0 = 1 / 2 := by
  constructor
  · intro theta phi
    simp only [reegar_f2, F_PI, spherical_to_xyz]
    have hpi := Real.pi_pos
    have h1 := Real.arctan_lt_pi_div_two (Real.cos theta)
    have h2 := Real.neg_pi_div_two_lt_arctan (Real.cos theta)
    rw [div_mul_eq_mul_div]
    constructor
    · rw [le_div_iff₀ hpi]
      linarith
    · rw [div_le_one hpi]
      linarith
  · have hpi := Real.pi_ne_zero
    simp only [reegar_f2, F_PI, spherical_to_xyz, Real.cos_zero, Real.arctan_one]
    field_simp
    ring

/-! franke as a sum of Gaussians. -/

/-- Modelled from the spec: a weighted axis-aligned 3D Gaussian term
centered at the fixed point (p, q, r), namely
w * exp(-(a(X-p)^2 + b(Y-q)^2 + c(Z-r)^2)) with nonnegative axis
coefficients a, b, c.  The spec describes franke as a sum of four such
weighted terms evaluated at coordinates scaled by 9. -/
def gaussTerm (w a b c p q r X Y Z : ℝ) : ℝ :=
  w * Real.exp (-(a * (X - p) ^ 2 + b * (Y - q) ^ 2 + c * (Z - r) ^ 2))

/-- Congruence of the real exponential. -/
theorem exp_congr {A B : ℝ} (h : A = B) : Real.exp A = Real.exp B := by
  rw [h]

/-- C3: franke equals a sum of four weighted 3D Gaussian terms centered at
fixed points in (x, y, z)-space, with coordinates scaled by 9.  The first,
third and fourth source terms are literally such Gaussians centered at
(2,2,2), (7,3,5) and (4,7,5); the second term, whose source exponent is
linear in y and z, equals a Gaussian centered at (-10/59, -1/2, -1/2) on
the unit sphere, by completing the square against x^2 + y^2 + z^2 = 1. -/
theorem C3_franke_gaussian_sum (theta phi : ℝ) :
    franke theta phi =
      gaussTerm 0.75 (1 / 4) (1 / 4) (1 / 4) 2 2 2
          (9 * (spherical_to_xyz theta phi).1) (9 * (spherical_to_xyz theta phi).2.1)
          (9 * (spherical_to_xyz theta phi).2.2) +
        gaussTerm (0.75 * Real.exp (9361 / 1180)) (59 / 490) (1 / 10) (1 / 10)
          (-(10 / 59)) (-(1 / 2)) (-(1 / 2))
          (9 * (spherical_to_xyz theta phi).1) (9 * (spherical_to_xyz theta phi).2.1)
          (9 * (spherical_to_xyz theta phi).2.2) +
        gaussTerm 0.5 (1 / 4) (1 / 4) (1 / 4) 7 3 5
          (9 * (spherical_to_xyz theta phi).1) (9 * (spherical_to_xyz theta phi).2.1)
          (9 * (spherical_to_xyz theta phi).2.2) +
        gaussTerm (-0.2) 1 1 1 4 7 5
          (9 * (spherical_to_xyz theta phi).1) (9 * (spherical_to_xyz theta phi).2.1)
          (9 * (spherical_to_xyz theta phi).2.2) := by
  have hn := spherical_to_xyz_norm theta phi
  simp only [franke]
  set x := (spherical_to_xyz theta phi).1 with hxdef
  set y := (spherical_to_xyz theta phi).2.1 with hydef
  set z := (spherical_to_xyz theta phi).2.2 with hzdef
  have t1 : (0.75 : ℝ) * Real.exp (-(9 * x - 2) * (9 * x - 2) / 4 -
        (9 * y - 2) * (9 * y - 2) / 4 - (9 * z - 2) * (9 * z - 2) / 4) =
      gaussTerm 0.75 (1 / 4) (1 / 4) (1 / 4) 2 2 2 (9 * x) (9 * y) (9 * z) := by
    simp only [gaussTerm]
    exact congrArg (fun t => 0.75 * t) (exp_congr (by ring))
  have t2 : (0.75 : ℝ) * Real.exp (-(9 * x + 1) * (9 * x + 1) / 49 -
        (9 * y + 1) / 10 - (9 * z + 1) / 10) =
      gaussTerm (0.75 * Real.exp (9361 / 1180)) (59 / 490) (1 / 10) (1 / 10)
        (-(10 / 59)) (-(1 / 2)) (-(1 / 2)) (9 * x) (9 * y) (9 * z) := by
    simp only [gaussTerm]
    rw [mul_assoc, ← Real.exp_add]
    exact congrArg (fun t => 0.75 * t) (exp_congr (by linear_combination (81 / 10) * hn))
  have t3 : (0.5 : ℝ) * Real.exp (-(9 * x - 7) * (9 * x - 7) / 4 -
        (9 * y - 3) * (9 * y - 3) / 4 - (9 * z - 5) * (9 * z - 5) / 4) =
      gaussTerm 0.5 (1 / 4) (1 / 4) (1 / 4) 7 3 5 (9 * x) (9 * y) (9 * z) := by
    simp only [gaussTerm]
    exact congrArg (fun t => 0.5 * t) (exp_congr (by ring))
  have t4 : (-0.2 : ℝ) * Real.exp (-(9 * x - 4) * (9 * x - 4) -
        (9 * y - 7) * (9 * y - 7) - (9 * z - 5) * (9 * z - 5)) =
      gaussTerm (-0.2) 1 1 1 4 7 5 (9 * x) (9 * y) (9 * z) := by
    simp only [gaussTerm]
    exact congrArg (fun t => (-0.2) * t) (exp_congr (by ring))
  linarith [t1, t2, t3, t4]

/-! cf_f10 does not depend on phi. -/

/-- C10: cf_f10 is independent of the azimuthal angle, because its
x^2 + y^2 + z^2 term is identically 1 on the unit sphere, so
cf_f10(theta, phi) = 6 + 2.5 cos((theta - pi)/2) sin(16 theta). -/
theorem C10_cf_f10_phi_independent :
    (∀ theta phi1 phi2 : ℝ, cf_f10 theta phi1 = cf_f10 theta phi2) ∧
    (∀ theta phi : ℝ, cf_f10 theta phi =
      6 + 2.5 * Real.cos ((theta - Real.pi) / 2) * Real.sin (16 * theta)) := by
  have key : ∀ theta phi : ℝ, cf_f10 theta phi =
      6 + 2.5 * Real.cos ((theta - Real.pi) / 2) * Real.sin (16 * theta) := by
    intro theta phi
    have hn := spherical_to_xyz_norm theta phi
    simp only [cf_f10, F_PI]
    linear_combination hn
  exact ⟨fun theta phi1 phi2 => (key theta phi1).trans (key theta phi2).symm, key⟩

/-! Periodicity in the azimuthal angle. -/

/-- The sine of x plus a natural multiple of 2 pi is the sine of x. -/
theorem sin_add_nat_two_pi (x : ℝ) (n : ℕ) :
    Real.sin (x + n * (2 * Real.pi)) = Real.sin x :=
  (Real.sin_periodic.nat_mul n) x

/-- The cosine of x plus a natural multiple of 2 pi is the cosine of x. -/
theorem cos_add_nat_two_pi (x : ℝ) (n : ℕ) :
    Real.cos (x + n * (2 * Real.pi)) = Real.cos x :=
  (Real.cos_periodic.nat_mul n) x

/-- The coordinate transform is 2 pi-periodic in phi. -/
theorem spherical_to_xyz_add_two_pi (theta phi : ℝ) :
    spherical_to_xyz theta (phi + 2 * Real.pi) = spherical_to_xyz theta phi := by
  simp only [spherical_to_xyz, Real.sin_add_two_pi, Real.cos_add_two_pi]

/-- cf_f1 is 2 pi-periodic in phi. -/
theorem cf_f1_add_two_pi (theta phi : ℝ) :
    cf_f1 theta (phi + 2 * Real.pi) = cf_f1 theta phi := by
  simp only [cf_f1]
  rw [show (2 : ℝ) * (phi + 2 * Real.pi) = 2 * phi + (2 : ℕ) * (2 * Real.pi) by
    push_cast; ring]
  rw [cos_add_nat_two_pi]

/-- cf_f2 is 2 pi-periodic in phi. -/
theorem cf_f2_add_two_pi (theta phi : ℝ) :
    cf_f2 theta (phi + 2 * Real.pi) = cf_f2 theta phi := by
  simp only [cf_f2]
  rw [show (2 : ℝ) * (phi + 2 * Real.pi) - theta = (2 * phi - theta) + (2 : ℕ) * (2 * Real.pi) by
    push_cast; ring]
  rw [sin_add_nat_two_pi]

/-- cf_f3 is 2 pi-periodic in phi. -/
theorem cf_f3_add_two_pi (theta phi : ℝ) :
    cf_f3 theta (phi + 2 * Real.pi) = cf_f3 theta phi := by
  simp only [cf_f3]
  rw [show (5 : ℝ) * (phi + 2 * Real.pi) = 5 * phi + (5 : ℕ) * (2 * Real.pi) by
    push_cast; ring]
  rw [sin_add_nat_two_pi]

/-- cf_f4 is 2 pi-periodic in phi. -/
theorem cf_f4_add_two_pi (theta phi : ℝ) :
    cf_f4 theta (phi + 2 * Real.pi) = cf_f4 theta phi := by
  simp only [cf_f4]
  rw [show (5 : ℝ) * (phi + 2 * Real.pi) = 5 * phi + (5 : ℕ) * (2 * Real.pi) by
    push_cast; ring]
  rw [cos_add_nat_two_pi]

/-- cf_f5 is 2 pi-periodic in phi. -/
theorem cf_f5_add_two_pi (theta phi : ℝ) :
    cf_f5 theta (phi + 2 * Real.pi) = cf_f5 theta phi := by
  simp only [cf_f5]
  rw [show (45 : ℝ) * theta + 45 * (phi + 2 * Real.pi) =
      (45 * theta + 45 * phi) + (45 : ℕ) * (2 * Real.pi) by push_cast; ring]
  rw [cos_add_nat_two_pi, Real.sin_add_two_pi, Real.cos_add_two_pi]

/-- cf_f6 is 2 pi-periodic in phi. -/
theorem cf_f6_add_two_pi (theta phi : ℝ) :
    cf_f6 theta (phi + 2 * Real.pi) = cf_f6 theta phi := by
  simp only [cf_f6]
  rw [show (2 : ℝ) * (phi + 2 * Real.pi) = 2 * phi + (2 : ℕ) * (2 * Real.pi) by
    push_cast; ring]
  rw [cos_add_nat_two_pi]

/-- C9: every catalog function is 2 pi-periodic in the azimuthal angle:
the functions routed through spherical_to_xyz inherit the periodicity of
its output, and the functions using phi directly only do so inside sine
and cosine of integer multiples of phi (including the cos(45 theta +
45 phi) term of cf_f5). -/
theorem C9_all_functions_two_pi_periodic_in_phi (theta phi : ℝ) :
    fornberg_f1 theta (phi + 2 * Real.pi) = fornberg_f1 theta phi ∧
    fornberg_f4 theta (phi + 2 * Real.pi) = fornberg_f4 theta phi ∧
    beentjes_f3 theta (phi + 2 * Real.pi) = beentjes_f3 theta phi ∧
    beentjes_f4 theta (phi + 2 * Real.pi) = beentjes_f4 theta phi ∧
    beentjes_f5 theta (phi + 2 * Real.pi) = beentjes_f5 theta phi ∧
    renka_f3 theta (phi + 2 * Real.pi) = renka_f3 theta phi ∧
    renka_f4 theta (phi + 2 * Real.pi) = renka_f4 theta phi ∧
    renka_f5 theta (phi + 2 * Real.pi) = renka_f5 theta phi ∧
    reegar_f3 theta (phi + 2 * Real.pi) = reegar_f3 theta phi ∧
    bellet_f4 theta (phi + 2 * Real.pi) = bellet_f4 theta phi ∧
    reegar_f2 theta (phi + 2 * Real.pi) = reegar_f2 theta phi ∧
    reegar_f4 theta (phi + 2 * Real.pi) = reegar_f4 theta phi ∧
    franke theta (phi + 2 * Real.pi) = franke theta phi ∧
    cf_f1 theta (phi + 2 * Real.pi) = cf_f1 theta phi ∧
    cf_f2 theta (phi + 2 * Real.pi) = cf_f2 theta phi ∧
    cf_f3 theta (phi + 2 * Real.pi) = cf_f3 theta phi ∧
    cf_f4 theta (phi + 2 * Real.pi) = cf_f4 theta phi ∧
    cf_f5 theta (phi + 2 * Real.pi) = cf_f5 theta phi ∧
    cf_f6 theta (phi + 2 * Real.pi) = cf_f6 theta phi ∧
    cf_f7 theta (phi + 2 * Real.pi) = cf_f7 theta phi ∧
    cf_f8 theta (phi + 2 * Real.pi) = cf_f8 theta phi ∧
    cf_f9 theta (phi + 2 * Real.pi) = cf_f9 theta phi ∧
    cf_f10 theta (phi + 2 * Real.pi) = cf_f10 theta phi ∧
    cf_f11 theta (phi + 2 * Real.pi) = cf_f11 theta phi ∧
    cf_f12 theta (phi + 2 * Real.pi) = cf_f12 theta phi ∧
    cf_f13 theta (phi + 2 * Real.pi) = cf_f13 theta phi ∧
    cf_f14 theta (phi + 2 * Real.pi) = cf_f14 theta phi ∧
    cf_15 theta (phi + 2 * Real.pi) = cf_15 theta phi := by
  refine ⟨?_, ?_, ?_, ?_, ?_, ?_, ?_, ?_, ?_, ?_, ?_, ?_, ?_, ?_, ?_, ?_, ?_, ?_, ?_,
    ?_, ?_, ?_, ?_, ?_, ?_, ?_, ?_, ?_⟩
  · simp only [fornberg_f1, spherical_to_xyz_add_two_pi]
  · simp only [fornberg_f4, spherical_to_xyz_add_two_pi]
  · simp only [beentjes_f3, spherical_to_xyz_add_two_pi]
  · simp only [beentjes_f4, spherical_to_xyz_add_two_pi]
  · simp only [beentjes_f5, spherical_to_xyz_add_two_pi]
  · simp only [renka_f3, spherical_to_xyz_add_two_pi]
  · simp only [renka_f4, spherical_to_xyz_add_two_pi]
  · simp only [renka_f5, spherical_to_xyz_add_two_pi]
  · simp only [reegar_f3, spherical_to_xyz_add_two_pi]
  · simp only [bellet_f4, spherical_to_xyz_add_two_pi]
  · simp only [reegar_f2, spherical_to_xyz_add_two_pi]
  · simp only [reegar_f4, spherical_to_xyz_add_two_pi]
  · simp only [franke, spherical_to_xyz_add_two_pi]
  · exact cf_f1_add_two_pi theta phi
  · exact cf_f2_add_two_pi theta phi
  · exact cf_f3_add_two_pi theta phi
  · exact cf_f4_add_two_pi theta phi
  · exact cf_f5_add_two_pi theta phi
  · exact cf_f6_add_two_pi theta phi
  · simp only [cf_f7, spherical_to_xyz_add_two_pi]
  · simp only [cf_f8, spherical_to_xyz_add_two_pi]
  · simp only [cf_f9, spherical_to_xyz_add_two_pi]
  · simp only [cf_f10, spherical_to_xyz_add_two_pi]
  · simp only [cf_f11, spherical_to_xyz_add_two_pi]
  · simp only [cf_f12, spherical_to_xyz_add_two_pi]
  · simp only [cf_f13, spherical_to_xyz_add_two_pi]
  · simp only [cf_f14, spherical_to_xyz_add_two_pi]
  · simp only [cf_15, spherical_to_xyz_add_two_pi]

end sphc
